import Mathlib

/-!
Verification of the camera acquisition / classification / health pipeline.

The definitions below are a shallow embedding of the JavaScript source:
pure functions become Lean functions, the module-level mutable state
(`screenshotBuffer`, `preservedFrames`, `cameraStatus`, the smart-capture
trackers) becomes an explicit `ServerState` record threaded through step
functions, and the completion of one asynchronous capture run becomes one
application of a step function to a `CaptureOutcome` describing what the
external world (ffmpeg, the filesystem, the vision classifier) did.
JavaScript peculiarities that the source relies on (`slice(-n)`,
`[...new Set(xs)]`, truthiness of `frame.timestamp`, `trim().toUpperCase()`
followed by `includes`) are modelled by dedicated `js*` helpers.
-/

namespace MaseruCam

/-- View categories, the values of `ANGLE_TYPES` in the source
(`bridge`, `processing`, `wide`, `useless`). -/
inductive AngleType
  | bridge
  | processing
  | wide
  | useless
deriving DecidableEq, Repr

/-- A raw captured image. The source treats the image bytes opaquely except
for their byte count (`imageBuffer.length`, used by the blur filter), so an
image is abstracted to an identity plus its byte length. -/
structure ImageBuffer where
  ident : Nat
  byteLength : Nat
deriving DecidableEq, Repr

/-- A buffered frame: the object `{ screenshot, timestamp, angleType }`
built in `captureFrame` and `smartCapture`. -/
structure FrameData where
  screenshot : ImageBuffer
  timestamp : Int
  angleType : AngleType
deriving DecidableEq, Repr

/-- The three values of `cameraStatus.status`. -/
inductive StatusTag
  | operational
  | stuck_on_angle
  | down
deriving DecidableEq, Repr

/-- The `cameraStatus` record of the source: rolling health counters plus
the derived status fields. -/
structure CameraStatus where
  consecutiveFailures : Nat
  angleHistory : List AngleType
  lastSuccessfulCapture : Option Int
  status : StatusTag
  stuckAngle : Option AngleType
deriving DecidableEq, Repr

/-- Threshold `FAILURE_THRESHOLD = 3` ("3 failures = camera down"). -/
def FAILURE_THRESHOLD : Nat := 3

/-- Threshold `STUCK_THRESHOLD = 10` ("10 same angles in a row = stuck"). -/
def STUCK_THRESHOLD : Nat := 10

/-- Capacity `HISTORY_SIZE = 15` of the rolling `angleHistory`. -/
def HISTORY_SIZE : Nat := 15

/-- Capacity `config.maxBufferSize = 20` of the main screenshot buffer. -/
def maxBufferSize : Nat := 20

/-- JavaScript `array.slice(-n)`: the last `n` elements of the array, in
order (and the whole array when `n = 0`, since `slice(-0)` is `slice(0)`). -/
def jsSliceLast (n : Nat) (l : List α) : List α :=
  if n = 0 then l else (l.reverse.take n).reverse

/-- Worker for `jsSetDedup`: elements already seen are dropped, the rest
keep their first occurrence in order. -/
def jsSetDedupFrom [DecidableEq α] (seen : List α) : List α → List α
  | [] => []
  | a :: as =>
      if a ∈ seen then jsSetDedupFrom seen as
      else a :: jsSetDedupFrom (a :: seen) as

/-- JavaScript `[...new Set(l)]`: duplicates removed, first occurrences
kept in order. -/
def jsSetDedup [DecidableEq α] (l : List α) : List α :=
  jsSetDedupFrom [] l

/-- The function `updateCameraStatus` of the source: recompute
`status`/`stuckAngle` from the rolling counters. The `down` check comes
first; the stuck check looks at the last `STUCK_THRESHOLD` entries of
`angleHistory`, drops the `useless` ones, and fires when exactly one
distinct angle remains. -/
def updateCameraStatus (s : CameraStatus) : CameraStatus :=
  if FAILURE_THRESHOLD ≤ s.consecutiveFailures then
    { s with status := .down, stuckAngle := none }
  else if STUCK_THRESHOLD ≤ s.angleHistory.length then
    let recentAngles := jsSliceLast STUCK_THRESHOLD s.angleHistory
    let uniqueAngles := jsSetDedup (recentAngles.filter (fun a => a ≠ AngleType.useless))
    if uniqueAngles.length = 1 then
      { s with status := .stuck_on_angle, stuckAngle := uniqueAngles.head? }
    else
      { s with status := .operational, stuckAngle := none }
  else
    { s with status := .operational, stuckAngle := none }

/-- The function `recordCaptureSuccess` of the source: zero the failure
counter, stamp the success time, push the classification onto
`angleHistory` (shifting the oldest entry out past `HISTORY_SIZE`), and
recompute the status. -/
def recordCaptureSuccess (now : Int) (angleType : AngleType) (s : CameraStatus) :
    CameraStatus :=
  let s1 : CameraStatus :=
    { s with consecutiveFailures := 0, lastSuccessfulCapture := some now }
  let hist := s1.angleHistory ++ [angleType]
  let hist := if HISTORY_SIZE < hist.length then hist.drop 1 else hist
  updateCameraStatus { s1 with angleHistory := hist }

/-- The function `recordCaptureFailure` of the source: bump the failure
counter and recompute the status. -/
def recordCaptureFailure (s : CameraStatus) : CameraStatus :=
  updateCameraStatus
    { s with consecutiveFailures := s.consecutiveFailures + 1 }

/-- The `preservedFrames` object: one nullable slot per useful angle. -/
structure PreservedFrames where
  bridge : Option FrameData
  processing : Option FrameData
  wide : Option FrameData
deriving DecidableEq, Repr

/-- Slot lookup, `preservedFrames[c]`. -/
def PreservedFrames.get (p : PreservedFrames) : AngleType → Option FrameData
  | .bridge => p.bridge
  | .processing => p.processing
  | .wide => p.wide
  | .useless => none

/-- JavaScript `preservedFrames.hasOwnProperty(angleType)`: the object has
keys only for the three useful angles. -/
def PreservedFrames.hasSlot (_p : PreservedFrames) : AngleType → Bool
  | .useless => false
  | _ => true

/-- Slot assignment, `preservedFrames[c] = f` (no key for `useless`). -/
def PreservedFrames.set (p : PreservedFrames) (c : AngleType) (f : FrameData) :
    PreservedFrames :=
  match c with
  | .bridge => { p with bridge := some f }
  | .processing => { p with processing := some f }
  | .wide => { p with wide := some f }
  | .useless => p

/-- Append to the screenshot buffer and trim to the last `cap` frames:
`screenshotBuffer.push(f)` followed by
`if (length > maxBufferSize) screenshotBuffer = screenshotBuffer.slice(-maxBufferSize)`. -/
def commitToBuffer (cap : Nat) (buffer : List FrameData) (f : FrameData) :
    List FrameData :=
  let b := buffer ++ [f]
  if cap < b.length then jsSliceLast cap b else b

/-- The module-level mutable state shared by `captureFrame`,
`smartCapture` and the readers. -/
structure ServerState where
  screenshotBuffer : List FrameData
  preservedFrames : PreservedFrames
  cameraStatus : CameraStatus
  lastCapturedAngle : Option AngleType
  lastAngleChangeTime : Int
  consecutiveSameAngle : Nat
deriving DecidableEq, Repr

/-- State at module load: empty buffer, empty slots, zeroed counters. -/
def initialState : ServerState :=
  { screenshotBuffer := []
    preservedFrames := ⟨none, none, none⟩
    cameraStatus := ⟨0, [], none, .operational, none⟩
    lastCapturedAngle := none
    lastAngleChangeTime := 0
    consecutiveSameAngle := 0 }

/-- JavaScript
`screenshotBuffer.length > 0 ? screenshotBuffer[screenshotBuffer.length - 1].screenshot : null`,
the degraded-mode fallback value. -/
def latestScreenshot (buffer : List FrameData) : Option ImageBuffer :=
  buffer.getLast?.map (fun f => f.screenshot)

/-- Threshold `BLUR_THRESHOLD_KB = 40` of the blur filter. -/
def BLUR_THRESHOLD_KB : Nat := 40

/-- The function `isImageBlurry` of the source: the size in KB
(`length / 1024`) is below the threshold; the comparison is exact, so this
is a byte comparison against `40 * 1024`. -/
def isImageBlurry (img : ImageBuffer) : Bool :=
  img.byteLength < BLUR_THRESHOLD_KB * 1024

/-- Outcome of one external classifier call: the response text, or a
network/service error (a thrown exception in the source). -/
inductive CallResult
  | ok (text : String)
  | failed
deriving DecidableEq, Repr

/-- The three sequential classifier calls made by `classifyFrameAngle`:
the vegetation check, the wide-view check, and the bridge/processing
classification. -/
structure ClassifierOracle where
  uselessCheck : CallResult
  wideCheck : CallResult
  finalCheck : CallResult
deriving DecidableEq, Repr

/-- Sequence matching at the head of a list. -/
def jsListStarts [DecidableEq α] : List α → List α → Bool
  | _, [] => true
  | [], _ :: _ => false
  | a :: as, b :: bs => decide (a = b) && jsListStarts as bs

/-- JavaScript `l.includes(sub)` on character lists. -/
def jsListHas [DecidableEq α] : List α → List α → Bool
  | [], sub => jsListStarts ([] : List α) sub
  | a :: as, sub => jsListStarts (a :: as) sub || jsListHas as sub

/-- JavaScript `text.trim().toUpperCase()` as a character list. -/
def jsUpperTrim (s : String) : List Char :=
  (((s.toList.dropWhile Char.isWhitespace).reverse.dropWhile
      Char.isWhitespace).reverse).map Char.toUpper

/-- JavaScript `text.trim().toUpperCase().includes(sub)`, the way every
classifier response is interrogated by the source. -/
def respIncludes (t : String) (sub : String) : Bool :=
  jsListHas (jsUpperTrim t) sub.toList

/-- The function `classifyFrameAngle` of the source. A classification in
progress short-circuits to `useless`; each response drives the decision
tree; every thrown error is caught and mapped to `useless`. -/
def classifyFrameAngle (isClassifying : Bool) (o : ClassifierOracle) : AngleType :=
  if isClassifying then .useless
  else
    match o.uselessCheck with
    | .failed => .useless
    | .ok t =>
      if respIncludes t "YES" then .useless
      else
        match o.wideCheck with
        | .failed => .useless
        | .ok t2 =>
          if respIncludes t2 "YES" then .wide
          else
            match o.finalCheck with
            | .failed => .useless
            | .ok t3 =>
              if respIncludes t3 "BRIDGE" then .bridge
              else if respIncludes t3 "PROCESSING" then .processing
              else .useless

/-- Whether the call sequence of `classifyFrameAngle` reaches an external
call that errors (so that the `catch` block runs). Mirrors the decision
tree of `classifyFrameAngle`. -/
def classifierPathHitsError (isClassifying : Bool) (o : ClassifierOracle) : Bool :=
  if isClassifying then false
  else
    match o.uselessCheck with
    | .failed => true
    | .ok t =>
      if respIncludes t "YES" then false
      else
        match o.wideCheck with
        | .failed => true
        | .ok t2 =>
          if respIncludes t2 "YES" then false
          else
            match o.finalCheck with
            | .failed => true
            | .ok _ => false

/-- What the external world did during one capture run. The `frame` case
carries the captured image, the state of the classification single-flight
flag, and the classifier responses. -/
inductive CaptureOutcome
  | spawnFailed
  | exitFailure
  | readFailed
  | frame (img : ImageBuffer) (busy : Bool) (oracle : ClassifierOracle)
deriving DecidableEq, Repr

/-- The `timeout` option passed to `spawn` for the ffmpeg subprocess, in
milliseconds (the internal subprocess timeout). -/
def captureSubprocessTimeoutMs : Nat := 30000

/-- The delay of the outer `setTimeout` that SIGKILLs a still-running
capture, in milliseconds (the outer hard-kill timeout). -/
def captureHardKillTimeoutMs : Nat := 25000

/-- The commit block shared verbatim by `captureFrame` and `smartCapture`:
push to the buffer, overwrite the preserved slot for a useful angle, trim
the buffer, and record a capture success. -/
def commitFrame (s : ServerState) (now : Int) (frameData : FrameData) :
    ServerState :=
  let preserved :=
    if frameData.angleType ≠ AngleType.useless ∧
        s.preservedFrames.hasSlot frameData.angleType = true then
      s.preservedFrames.set frameData.angleType frameData
    else s.preservedFrames
  { s with
    screenshotBuffer := commitToBuffer maxBufferSize s.screenshotBuffer frameData
    preservedFrames := preserved
    cameraStatus := recordCaptureSuccess now frameData.angleType s.cameraStatus }

/-- One completed run of `captureFrame` (the on-demand capture): the new
shared state and the resolved value. Failures record a capture failure and
resolve the latest buffered screenshot; a blurry frame is skipped before
classification and resolves the latest buffered screenshot; otherwise the
frame is classified and committed unconditionally. -/
def captureFrameStep (s : ServerState) (now : Int) (outcome : CaptureOutcome) :
    ServerState × Option ImageBuffer :=
  match outcome with
  | .spawnFailed =>
      ({ s with cameraStatus := recordCaptureFailure s.cameraStatus },
       latestScreenshot s.screenshotBuffer)
  | .exitFailure =>
      ({ s with cameraStatus := recordCaptureFailure s.cameraStatus },
       latestScreenshot s.screenshotBuffer)
  | .readFailed =>
      ({ s with cameraStatus := recordCaptureFailure s.cameraStatus },
       latestScreenshot s.screenshotBuffer)
  | .frame img busy oracle =>
      if isImageBlurry img then
        (s, latestScreenshot s.screenshotBuffer)
      else
        let angleType := classifyFrameAngle busy oracle
        let frameData : FrameData := ⟨img, now, angleType⟩
        (commitFrame s now frameData, some img)

/-- Refresh threshold of `smartCapture`: "3 minutes without change". -/
def REFRESH_THRESHOLD_MS : Int := 180000

/-- Result of one `smartCapture` run: the new shared state, the resolved
value, and the frame that was saved to the buffer, if any (`some` exactly
on the `shouldSave` path of the source). -/
structure SmartResult where
  state : ServerState
  resolved : Option ImageBuffer
  saved : Option FrameData
deriving DecidableEq, Repr

/-- One completed run of `smartCapture` (the body of the 20-second
scheduler tick). A classified frame is saved when the angle changed
(which also restarts the angle-change clock) or when more than
`REFRESH_THRESHOLD_MS` elapsed since the last angle change; `useless`
frames are never saved; `lastCapturedAngle` is updated for every
non-useless classification, saved or not. -/
def smartCaptureStep (s : ServerState) (now : Int) (outcome : CaptureOutcome) :
    SmartResult :=
  match outcome with
  | .spawnFailed =>
      ⟨{ s with cameraStatus := recordCaptureFailure s.cameraStatus }, none, none⟩
  | .exitFailure =>
      ⟨{ s with cameraStatus := recordCaptureFailure s.cameraStatus }, none, none⟩
  | .readFailed =>
      ⟨{ s with cameraStatus := recordCaptureFailure s.cameraStatus }, none, none⟩
  | .frame img busy oracle =>
      if isImageBlurry img then ⟨s, none, none⟩
      else
        let angleType := classifyFrameAngle busy oracle
        let preSave : Option ServerState :=
          if s.lastCapturedAngle ≠ some angleType ∧ angleType ≠ AngleType.useless then
            some { s with consecutiveSameAngle := 0, lastAngleChangeTime := now }
          else if REFRESH_THRESHOLD_MS < now - s.lastAngleChangeTime ∧
              angleType ≠ AngleType.useless then
            some { s with consecutiveSameAngle := s.consecutiveSameAngle + 1 }
          else none
        match preSave with
        | some s1 =>
            let frameData : FrameData := ⟨img, now, angleType⟩
            let s2 := commitFrame s1 now frameData
            let s3 :=
              if angleType = AngleType.useless then s2
              else { s2 with lastCapturedAngle := some angleType }
            ⟨s3, some img, some frameData⟩
        | none =>
            let s1 :=
              if angleType = AngleType.useless then s
              else { s with consecutiveSameAngle := s.consecutiveSameAngle + 1 }
            let s2 :=
              if angleType = AngleType.useless then s1
              else { s1 with lastCapturedAngle := some angleType }
            ⟨s2, some img, none⟩

/-- Worker for `smartRun`: fold the scheduler ticks over the state,
collecting the saved frames in order. -/
def smartRunAux (s : ServerState) (acc : List FrameData) :
    List (Int × CaptureOutcome) → ServerState × List FrameData
  | [] => (s, acc)
  | (now, outc) :: rest =>
      let r := smartCaptureStep s now outc
      smartRunAux r.state (acc ++ r.saved.toList) rest

/-- A run of the background scheduler from module load: the final state
and the list of frames committed to the buffer, in commit order. -/
def smartRun (ticks : List (Int × CaptureOutcome)) : ServerState × List FrameData :=
  smartRunAux initialState [] ticks

/-- Spec-level reading of the commit trace: the category of the last
committed frame together with the timestamp of the last commit whose
category differed from its predecessor (the last angle change). -/
def angleTracker (commits : List FrameData) : Option AngleType × Int :=
  commits.foldl
    (fun p f => if p.1 = some f.angleType then p else (some f.angleType, f.timestamp))
    (none, 0)

/-- Freshness window `MAX_FRAME_AGE_MS` (10 minutes). -/
def MAX_FRAME_AGE_MS : Int := 10 * 60 * 1000

/-- The function `isFrameFresh` of the source: false for a missing frame or
a falsy (zero) timestamp, else a bound on the frame age. -/
def isFrameFresh (now : Int) (frame : Option FrameData) : Bool :=
  match frame with
  | none => false
  | some f =>
      if f.timestamp = 0 then false
      else decide (now - f.timestamp ≤ MAX_FRAME_AGE_MS)

/-- The preserved-slot read performed by `analyzeTraffic` when it falls
back to a preserved frame: the slot is consulted through the freshness
check and the store is never mutated by the read. -/
def readPreserved (s : ServerState) (c : AngleType) (now : Int) :
    Option FrameData × ServerState :=
  (if isFrameFresh now (s.preservedFrames.get c) then s.preservedFrames.get c
   else none, s)

/-- Per-direction bridge counts of one trend reading. -/
structure BridgeCounts where
  lsToSa : Int
  saToLs : Int
  total : Int
deriving DecidableEq, Repr

/-- Canopy counts of one trend reading. -/
structure CanopyCounts where
  saToLsQueue : Int
  lsToSaArea : Int
  total : Int
deriving DecidableEq, Repr

/-- One entry of `trafficHistory.readings`. -/
structure TrendReading where
  timestamp : Int
  bridge : Option BridgeCounts
  canopy : Option CanopyCounts
deriving DecidableEq, Repr

/-- Per-direction trend tags. -/
inductive Trend
  | stable
  | increasing
  | decreasing
deriving DecidableEq, Repr

/-- Overall trend tags. -/
inductive OverallTrend
  | stable
  | building_up
  | clearing
deriving DecidableEq, Repr

/-- Flow-speed tags. -/
inductive FlowSpeed
  | normal
  | slow
  | very_slow
  | moving_well
deriving DecidableEq, Repr

/-- Confidence tags. -/
inductive Confidence
  | low
  | medium
  | high
deriving DecidableEq, Repr

/-- One per-direction trend entry of the `analyzeTrends` result. -/
structure DirTrend where
  trend : Trend
  change : Int
deriving DecidableEq, Repr

/-- The `analyzeTrends` result object (without the free-text message). -/
structure TrendInfo where
  lsToSa : DirTrend
  saToLs : DirTrend
  overall : OverallTrend
  flowSpeed : FlowSpeed
  confidence : Confidence
  timePeriod : Int
deriving DecidableEq, Repr

/-- Window `TREND_WINDOW = 5` used for the trend calculation. -/
def TREND_WINDOW : Nat := 5

/-- Window `MAX_HISTORY = 10` of the reading buffer. -/
def MAX_HISTORY : Nat := 10

/-- JavaScript `Math.round`: round half toward positive infinity. -/
def jsRound (q : ℚ) : Int := ⌊q + 1/2⌋

/-- JavaScript `r.bridge?.total || 0`. -/
def bridgeTotal (r : TrendReading) : Int :=
  match r.bridge with
  | some b => b.total
  | none => 0

/-- The method `trafficHistory.analyzeTrends()` of the source; `none` is
the "unknown / not enough data" result returned below two readings. -/
def analyzeTrends (readings : List TrendReading) : Option TrendInfo :=
  if readings.length < 2 then none
  else
    let recentReadings := jsSliceLast TREND_WINDOW readings
    match recentReadings.head?, recentReadings.getLast? with
    | some oldestReading, some newestReading =>
      let timeDiffMinutes : ℚ :=
        ((newestReading.timestamp - oldestReading.timestamp : Int) : ℚ) / 60000
      let base : TrendInfo :=
        { lsToSa := ⟨.stable, 0⟩
          saToLs := ⟨.stable, 0⟩
          overall := .stable
          flowSpeed := .normal
          confidence := if 5 ≤ readings.length then .high else .medium
          timePeriod := jsRound timeDiffMinutes }
      match oldestReading.bridge, newestReading.bridge with
      | some ob, some nb =>
        let lsToSaChange := nb.lsToSa - ob.lsToSa
        let lsTrend :=
          if 2 < lsToSaChange then Trend.increasing
          else if lsToSaChange < -2 then Trend.decreasing
          else Trend.stable
        let saToLsChange := nb.saToLs - ob.saToLs
        let saTrend :=
          if 2 < saToLsChange then Trend.increasing
          else if saToLsChange < -2 then Trend.decreasing
          else Trend.stable
        let totalChange := lsToSaChange + saToLsChange
        let overall :=
          if 3 < totalChange then OverallTrend.building_up
          else if totalChange < -3 then OverallTrend.clearing
          else OverallTrend.stable
        let n : ℚ := (recentReadings.length : ℚ)
        let avgTotal : ℚ :=
          ((recentReadings.map (fun r => ((bridgeTotal r : Int) : ℚ))).sum) / n
        let variance : ℚ :=
          ((recentReadings.map
              (fun r => ((bridgeTotal r : Int) : ℚ) - avgTotal)).map
            (fun d => d * d)).sum / n
        let flowSpeed :=
          if 10 < avgTotal ∧ variance < 2 then FlowSpeed.slow
          else if 15 < avgTotal ∧ variance < 3 then FlowSpeed.very_slow
          else if 5 < variance then FlowSpeed.moving_well
          else FlowSpeed.normal
        some
          { base with
            lsToSa := ⟨lsTrend, lsToSaChange⟩
            saToLs := ⟨saTrend, saToLsChange⟩
            overall := overall
            flowSpeed := flowSpeed }
      | _, _ => some base
    | _, _ => none

/-- One completed state mutation of the server: either a background
scheduler tick (`smartCapture`) or an on-demand capture (`captureFrame`). -/
inductive ServerTick
  | scheduled (now : Int) (outcome : CaptureOutcome)
  | onDemand (now : Int) (outcome : CaptureOutcome)
deriving Repr

/-- Apply one server tick to the shared state. -/
def serverStep (s : ServerState) : ServerTick → ServerState
  | .scheduled now outc => (smartCaptureStep s now outc).state
  | .onDemand now outc => (captureFrameStep s now outc).1

/-- The shared state reached from module load by a sequence of ticks. -/
def runServer (ticks : List ServerTick) : ServerState :=
  ticks.foldl serverStep initialState

/-- Classifier responses that classify a frame as `bridge`: the vegetation
and wide checks answer NO, the final check answers BRIDGE. -/
def oracleBridge : ClassifierOracle := ⟨.ok "NO", .ok "NO", .ok "BRIDGE"⟩

/-- Classifier responses where every external call errors out. -/
def oracleFailing : ClassifierOracle := ⟨.failed, .failed, .failed⟩

/-- Reading fixture for the trend claims: a bridge reading with the given
total count. -/
def c4Reading (ts t : Int) : TrendReading := ⟨ts, some ⟨0, 0, t⟩, none⟩

/-- Five readings whose totals are all 10 (no variance, mean exactly 10). -/
def c4SteadyTen : List TrendReading :=
  [c4Reading 0 10, c4Reading 60000 10, c4Reading 120000 10,
   c4Reading 180000 10, c4Reading 240000 10]

/-- Five readings whose totals are all 11 (no variance, mean above 10). -/
def c4SteadyEleven : List TrendReading :=
  [c4Reading 0 11, c4Reading 60000 11, c4Reading 120000 11,
   c4Reading 180000 11, c4Reading 240000 11]

/-- Five readings whose totals are 2, 9, 3, 8, 2 (high variance). -/
def c4Fluctuating : List TrendReading :=
  [c4Reading 0 2, c4Reading 60000 9, c4Reading 120000 3,
   c4Reading 180000 8, c4Reading 240000 2]

/-- Camera-status fixture: ten committed BridgeView classifications. -/
def c3SteadyTen : CameraStatus :=
  ⟨0, List.replicate 10 .bridge, none, .operational, none⟩

/-- Camera-status fixture: a `useless` entry followed by nine BridgeView
entries, so the last ten entries are NOT all equal. -/
def c3MixedHistory : CameraStatus :=
  ⟨0, AngleType.useless :: List.replicate 9 .bridge, none, .operational, none⟩

/-- Buffer-scenario fixture: frame A committed at t1. -/
def c5FrameA1 : FrameData := ⟨⟨100, 50000⟩, 1, .bridge⟩

/-- Buffer-scenario fixture: frame B committed at t2. -/
def c5FrameB : FrameData := ⟨⟨101, 50000⟩, 2, .processing⟩

/-- Buffer-scenario fixture: frame C committed at t3. -/
def c5FrameC : FrameData := ⟨⟨102, 50000⟩, 3, .wide⟩

/-- Buffer-scenario fixture: frame A committed again at t4. -/
def c5FrameA4 : FrameData := ⟨⟨100, 50000⟩, 4, .bridge⟩

/-- Preserved-slot fixture: a BridgeView frame with timestamp 100. -/
def c6OldFrame : FrameData := ⟨⟨1, 50000⟩, 100, .bridge⟩

/-- State whose bridge slot holds `c6OldFrame`. -/
def c6State : ServerState :=
  { initialState with preservedFrames := ⟨some c6OldFrame, none, none⟩ }

/-- Preserved-slot fixture for the freshness claim: a BridgeView frame
captured at t0 = 1000000000. -/
def c7Frame : FrameData := ⟨⟨1, 50000⟩, 1000000000, .bridge⟩

/-- State whose bridge slot holds `c7Frame`. -/
def c7State : ServerState :=
  { initialState with preservedFrames := ⟨some c7Frame, none, none⟩ }

/-- Buffered frame fixture for the blurry-tick claim. -/
def c10Frame : FrameData := ⟨⟨9, 60000⟩, 500, .wide⟩

/-- State whose buffer holds exactly `c10Frame`. -/
def c10State : ServerState :=
  { initialState with screenshotBuffer := [c10Frame] }

/-- Scheduler run fixture: a BridgeView frame committed at 1000000 (angle
change) and another committed at 1190000 (refresh of the same angle). -/
def c1Ticks : List (Int × CaptureOutcome) :=
  [(1000000, .frame ⟨1, 50000⟩ false oracleBridge),
   (1190000, .frame ⟨2, 50000⟩ false oracleBridge)]

/-- Recomputing the status never touches the rolling counters: every
branch of `updateCameraStatus` assigns only `status` and `stuckAngle`. -/
theorem updateCameraStatus_counters (s : CameraStatus) :
    (updateCameraStatus s).consecutiveFailures = s.consecutiveFailures ∧
    (updateCameraStatus s).angleHistory = s.angleHistory ∧
    (updateCameraStatus s).lastSuccessfulCapture = s.lastSuccessfulCapture := by
  unfold updateCameraStatus
  split
  · exact ⟨rfl, rfl, rfl⟩
  · split
    · dsimp only
      split
      · exact ⟨rfl, rfl, rfl⟩
      · exact ⟨rfl, rfl, rfl⟩
    · exact ⟨rfl, rfl, rfl⟩

/-- A recorded success always zeroes the failure counter. -/
theorem recordCaptureSuccess_failures (now : Int) (a : AngleType) (s : CameraStatus) :
    (recordCaptureSuccess now a s).consecutiveFailures = 0 := by
  unfold recordCaptureSuccess
  exact (updateCameraStatus_counters _).1

/-- A recorded failure bumps the failure counter by exactly one. -/
theorem recordCaptureFailure_counter (s : CameraStatus) :
    (recordCaptureFailure s).consecutiveFailures = s.consecutiveFailures + 1 := by
  unfold recordCaptureFailure
  exact (updateCameraStatus_counters _).1

/-- With the failure counter at the threshold, the recomputed status is
`down`. -/
theorem updateCameraStatus_down (s : CameraStatus)
    (h : FAILURE_THRESHOLD ≤ s.consecutiveFailures) :
    (updateCameraStatus s).status = .down := by
  unfold updateCameraStatus
  rw [if_pos h]

/-- With the failure counter below the threshold, the recomputed status is
never `down`. -/
theorem updateCameraStatus_not_down (s : CameraStatus)
    (h : s.consecutiveFailures < FAILURE_THRESHOLD) :
    (updateCameraStatus s).status ≠ .down := by
  unfold updateCameraStatus
  rw [if_neg (Nat.not_le.mpr h)]
  split
  · dsimp only
    split
    · intro hc; cases hc
    · intro hc; cases hc
  · intro hc; cases hc

/-- C2 counterexample: the outer hard-kill timeout (25000ms) is NOT
strictly greater than the internal subprocess timeout (30000ms), contrary
to the claim. -/
theorem c2_counterexample :
    ¬ (captureSubprocessTimeoutMs < captureHardKillTimeoutMs) := by decide

/-- C2 (amended): the capture operation enforces two nested timeouts — an
internal subprocess timeout of 30000ms and an outer hard-kill timeout of
25000ms — and the outer hard-kill timeout is strictly LESS than the
internal subprocess timeout, so the call resolves within the smaller
(25000ms) bound even if the subprocess hangs. -/
theorem c2_amended_nested_timeouts :
    captureSubprocessTimeoutMs = 30000 ∧
    captureHardKillTimeoutMs = 25000 ∧
    captureHardKillTimeoutMs < captureSubprocessTimeoutMs := by decide

/-- C4 counterexample: for totals [10,10,10,10,10] the flow speed computed
by `analyzeTrends` is `normal`, not `slow` or `very_slow`, because the
slow rule requires the mean to be strictly greater than 10. -/
theorem c4_counterexample :
    (analyzeTrends c4SteadyTen).map (fun i => i.flowSpeed) = some FlowSpeed.normal ∧
    FlowSpeed.normal ≠ FlowSpeed.slow ∧
    FlowSpeed.normal ≠ FlowSpeed.very_slow := by
  refine ⟨?_, by decide, by decide⟩
  norm_num [analyzeTrends, c4SteadyTen, c4Reading, jsSliceLast, TREND_WINDOW,
    bridgeTotal, jsRound]

/-- C4 (amended): the flow-speed tag is computed from the mean and variance
of totals in the trailing sub-window; totals [10,10,10,10,10] (mean exactly
10, zero variance) resolve to `normal` since the slow rule needs mean
strictly above 10, totals [11,11,11,11,11] (no variance, mean above 10)
resolve to `slow`, and totals [2,9,3,8,2] (high variance) resolve to
`moving_well`. -/
theorem c4_amended_flow_speed :
    (analyzeTrends c4SteadyTen).map (fun i => i.flowSpeed) = some FlowSpeed.normal ∧
    (analyzeTrends c4SteadyEleven).map (fun i => i.flowSpeed) = some FlowSpeed.slow ∧
    (analyzeTrends c4Fluctuating).map (fun i => i.flowSpeed) = some FlowSpeed.moving_well := by
  refine ⟨?_, ?_, ?_⟩ <;>
    norm_num [analyzeTrends, c4SteadyTen, c4SteadyEleven, c4Fluctuating, c4Reading,
      jsSliceLast, TREND_WINDOW, bridgeTotal, jsRound]

/-- C7: reading a preserved frame whose slot is occupied (with a real,
nonzero capture timestamp) returns the stored frame exactly when
`now - frame.timestamp ≤ MAX_FRAME_AGE_MS` and nil otherwise, and the read
leaves the store untouched (the stale frame is not deleted). -/
theorem c7_read_preserved_freshness (s : ServerState) (c : AngleType) (now : Int)
    (f : FrameData) (hslot : s.preservedFrames.get c = some f)
    (hts : f.timestamp ≠ 0) :
    (readPreserved s c now).1 =
      (if now - f.timestamp ≤ MAX_FRAME_AGE_MS then some f else none) ∧
    (readPreserved s c now).2 = s := by
  refine ⟨?_, rfl⟩
  by_cases h : now - f.timestamp ≤ MAX_FRAME_AGE_MS
  · simp [readPreserved, isFrameFresh, hslot, hts, h]
  · simp [readPreserved, isFrameFresh, hslot, hts, h]

/-- C7 witness: with the 600000ms window and a preserved BridgeView frame
at t0 = 1000000000, the read at t0+500000 returns the frame and the read
at t0+700000 returns nil. -/
theorem c7_witness :
    (readPreserved c7State AngleType.bridge 1000500000).1 = some c7Frame ∧
    (readPreserved c7State AngleType.bridge 1000700000).1 = none := by
  have h1 := c7_read_preserved_freshness c7State AngleType.bridge 1000500000 c7Frame
    rfl (by decide)
  have h2 := c7_read_preserved_freshness c7State AngleType.bridge 1000700000 c7Frame
    rfl (by decide)
  refine ⟨?_, ?_⟩
  · rw [h1.1]; decide
  · rw [h2.1]; decide

/-- C10: on a tick where the blur filter rejects the captured frame, the
capture operation resolves the previous latest buffered screenshot and
leaves the whole shared state — buffer, preserved store, health counters,
angle history — exactly as before. -/
theorem c10_blurry_tick_no_effect (s : ServerState) (now : Int)
    (img : ImageBuffer) (busy : Bool) (o : ClassifierOracle)
    (hblur : isImageBlurry img = true) :
    (captureFrameStep s now (.frame img busy o)).1 = s ∧
    (captureFrameStep s now (.frame img busy o)).2 =
      (s.screenshotBuffer.getLast?).map (fun f => f.screenshot) := by
  constructor
  · simp [captureFrameStep, hblur]
  · simp [captureFrameStep, hblur, latestScreenshot]

/-- C10 witness: a 1000-byte (blurry) capture against a state holding one
buffered frame changes nothing and resolves that frame. -/
theorem c10_witness :
    (captureFrameStep c10State 999 (.frame ⟨7, 1000⟩ false oracleFailing)).1 = c10State ∧
    (captureFrameStep c10State 999 (.frame ⟨7, 1000⟩ false oracleFailing)).2 =
      (c10State.screenshotBuffer.getLast?).map (fun f => f.screenshot) :=
  c10_blurry_tick_no_effect c10State 999 ⟨7, 1000⟩ false oracleFailing (by decide)

/-- C8: with FAILURE_THRESHOLD = 3, three consecutive recorded failures
with no intervening success drive the status to `down`; recording any
successful classification resets `consecutiveFailures` to 0, pushes the
category onto `angleHistory`, and leaves the status non-`down` — in
particular one success after two failures yields a non-`down` status; and
only failures move the counter (a failure bumps it by exactly one, the
status recomputation never touches it). -/
theorem c8_failure_threshold (s : CameraStatus) (now : Int) (a : AngleType) :
    (recordCaptureFailure (recordCaptureFailure (recordCaptureFailure s))).status =
      StatusTag.down ∧
    (recordCaptureFailure s).consecutiveFailures = s.consecutiveFailures + 1 ∧
    (updateCameraStatus s).consecutiveFailures = s.consecutiveFailures ∧
    (recordCaptureSuccess now a s).consecutiveFailures = 0 ∧
    (recordCaptureSuccess now a s).angleHistory.getLast? = some a ∧
    (recordCaptureSuccess now a s).status ≠ StatusTag.down ∧
    (recordCaptureSuccess now a
        (recordCaptureFailure (recordCaptureFailure s))).status ≠ StatusTag.down := by
  have hc1 := recordCaptureFailure_counter s
  have hc2 := recordCaptureFailure_counter (recordCaptureFailure s)
  have hsucc : ∀ t : CameraStatus, (recordCaptureSuccess now a t).status ≠ StatusTag.down := by
    intro t
    unfold recordCaptureSuccess
    apply updateCameraStatus_not_down
    simp [FAILURE_THRESHOLD]
  have hdown : ∀ t : CameraStatus,
      FAILURE_THRESHOLD ≤ t.consecutiveFailures + 1 →
      (recordCaptureFailure t).status = StatusTag.down := by
    intro t h
    unfold recordCaptureFailure
    apply updateCameraStatus_down
    exact h
  refine ⟨?_, hc1, (updateCameraStatus_counters s).1,
    recordCaptureSuccess_failures now a s, ?_, hsucc s, hsucc _⟩
  · apply hdown
    rw [hc2, hc1]
    simp [FAILURE_THRESHOLD]
  · unfold recordCaptureSuccess
    dsimp only
    rw [(updateCameraStatus_counters _).2.1]
    split
    · case _ h =>
        cases hh : s.angleHistory with
        | nil => rw [hh] at h; simp [HISTORY_SIZE] at h
        | cons x xs => simp [List.getLast?_concat]
    · exact List.getLast?_concat _

/-- C9: when the executed classifier call sequence hits a network/service
error, classification returns `useless` instead of propagating the error,
and the subsequent capture bookkeeping records a success — so
`consecutiveFailures` ends at 0 and is in particular not incremented. -/
theorem c9_classifier_error_useless (busy : Bool) (o : ClassifierOracle)
    (s : ServerState) (now : Int) (img : ImageBuffer)
    (herr : classifierPathHitsError busy o = true)
    (hblur : isImageBlurry img = false) :
    classifyFrameAngle busy o = AngleType.useless ∧
    (captureFrameStep s now
        (.frame img busy o)).1.cameraStatus.consecutiveFailures = 0 := by
  have hcls : classifyFrameAngle busy o = AngleType.useless := by
    obtain ⟨c1, c2, c3⟩ := o
    cases busy with
    | true => simp [classifierPathHitsError] at herr
    | false =>
      cases c1 with
      | failed => rfl
      | ok t =>
        cases hy : respIncludes t "YES" with
        | true => simp [classifyFrameAngle, hy]
        | false =>
          cases c2 with
          | failed => simp [classifyFrameAngle, hy]
          | ok t2 =>
            cases hy2 : respIncludes t2 "YES" with
            | true =>
              unfold classifierPathHitsError at herr
              simp [hy, hy2] at herr
            | false =>
              cases c3 with
              | failed => simp [classifyFrameAngle, hy, hy2]
              | ok t3 =>
                unfold classifierPathHitsError at herr
                simp [hy, hy2] at herr
  refine ⟨hcls, ?_⟩
  simp [captureFrameStep, hblur, commitFrame, recordCaptureSuccess_failures]

/-- C9 witness: with every classifier call failing, a 50000-byte capture
classifies as `useless` and the tick leaves the failure counter at 0. -/
theorem c9_witness :
    classifyFrameAngle false oracleFailing = AngleType.useless ∧
    (captureFrameStep initialState 5
        (.frame ⟨2, 50000⟩ false oracleFailing)).1.cameraStatus.consecutiveFailures = 0 :=
  c9_classifier_error_useless false oracleFailing initialState 5 ⟨2, 50000⟩
    (by decide) (by decide)

/-- Dedup with a seen-set returns the empty list exactly when every element
was already seen. -/
theorem jsSetDedupFrom_eq_nil [DecidableEq α] (seen : List α) (l : List α) :
    jsSetDedupFrom seen l = [] ↔ ∀ a ∈ l, a ∈ seen := by
  induction l generalizing seen with
  | nil => simp [jsSetDedupFrom]
  | cons a as ih =>
    by_cases ha : a ∈ seen
    · simp [jsSetDedupFrom, ha, ih, List.forall_mem_cons]
    · simp [jsSetDedupFrom, ha, List.forall_mem_cons]

/-- Dedup with a seen-set returns a singleton `[c]` exactly when `c` is a
fresh element of the list and every element is either already seen or
equal to `c`. -/
theorem jsSetDedupFrom_eq_single [DecidableEq α] (seen : List α) (l : List α) (c : α) :
    jsSetDedupFrom seen l = [c] ↔
      c ∉ seen ∧ c ∈ l ∧ ∀ a ∈ l, a ∈ seen ∨ a = c := by
  induction l generalizing seen with
  | nil => simp [jsSetDedupFrom]
  | cons a as ih =>
    by_cases ha : a ∈ seen
    · rw [show jsSetDedupFrom seen (a :: as) = jsSetDedupFrom seen as from by
        simp [jsSetDedupFrom, ha]]
      rw [ih]
      constructor
      · rintro ⟨h1, h2, h3⟩
        refine ⟨h1, List.mem_cons_of_mem _ h2, ?_⟩
        intro x hx
        rcases List.mem_cons.mp hx with rfl | hx
        · exact Or.inl ha
        · exact h3 x hx
      · rintro ⟨h1, h2, h3⟩
        refine ⟨h1, ?_, fun x hx => h3 x (List.mem_cons_of_mem _ hx)⟩
        rcases List.mem_cons.mp h2 with rfl | h2
        · exact absurd ha h1
        · exact h2
    · rw [show jsSetDedupFrom seen (a :: as) = a :: jsSetDedupFrom (a :: seen) as from by
        simp [jsSetDedupFrom, ha]]
      constructor
      · intro h
        have hac : a = c ∧ jsSetDedupFrom (a :: seen) as = [] := by
          have := List.cons.injEq a (jsSetDedupFrom (a :: seen) as) c ([] : List α)
          rw [this] at h
          exact h
        obtain ⟨rfl, hnil⟩ := hac
        have hall := (jsSetDedupFrom_eq_nil (a :: seen) as).mp hnil
        refine ⟨ha, List.mem_cons_self a as, ?_⟩
        intro x hx
        rcases List.mem_cons.mp hx with rfl | hx
        · exact Or.inr rfl
        · rcases List.mem_cons.mp (hall x hx) with rfl | hs
          · exact Or.inr rfl
          · exact Or.inl hs
      · rintro ⟨h1, _h2, h3⟩
        have hac : a = c := by
          rcases h3 a (List.mem_cons_self a as) with hs | rfl
          · exact absurd hs ha
          · rfl
        subst hac
        have hnil : jsSetDedupFrom (a :: seen) as = [] := by
          rw [jsSetDedupFrom_eq_nil]
          intro x hx
          rcases h3 x (List.mem_cons_of_mem _ hx) with hs | rfl
          · exact List.mem_cons_of_mem _ hs
          · exact List.mem_cons_self _ _
        rw [hnil]

/-- The JavaScript set-spread of a list is the singleton `[c]` exactly when
the list is non-empty and every element equals `c`. -/
theorem jsSetDedup_eq_single [DecidableEq α] (l : List α) (c : α) :
    jsSetDedup l = [c] ↔ c ∈ l ∧ ∀ a ∈ l, a = c := by
  unfold jsSetDedup
  rw [jsSetDedupFrom_eq_single]
  simp

/-- C3 (amended): after recomputing health on a tick that is not `down`,
the state is stuck-on-angle with angle `c` exactly when `angleHistory` has
at least STUCK_THRESHOLD (10) entries and the non-`useless` entries among
the last 10 are non-empty and all equal to `c` — `useless` entries are
filtered out before the uniqueness check, so a run of one angle mixed with
`useless` entries still counts as stuck. The all-BridgeView and
interleaved-ProcessingView scenarios of the claim are instances of this
rule. -/
theorem c3_amended_stuck_rule (s : CameraStatus)
    (hnd : s.consecutiveFailures < FAILURE_THRESHOLD) (c : AngleType) :
    ((updateCameraStatus s).status = StatusTag.stuck_on_angle ∧
      (updateCameraStatus s).stuckAngle = some c) ↔
    (STUCK_THRESHOLD ≤ s.angleHistory.length ∧
      c ∈ (jsSliceLast STUCK_THRESHOLD s.angleHistory).filter
            (fun a => a ≠ AngleType.useless) ∧
      ∀ a ∈ (jsSliceLast STUCK_THRESHOLD s.angleHistory).filter
            (fun a => a ≠ AngleType.useless), a = c) := by
  unfold updateCameraStatus
  rw [if_neg (Nat.not_le.mpr hnd)]
  by_cases hlen : STUCK_THRESHOLD ≤ s.angleHistory.length
  · rw [if_pos hlen]
    dsimp only
    by_cases hone :
        (jsSetDedup ((jsSliceLast STUCK_THRESHOLD s.angleHistory).filter
          (fun a => decide (a ≠ AngleType.useless)))).length = 1
    · rw [if_pos hone]
      obtain ⟨x, hx⟩ := List.length_eq_one.mp hone
      have hhead : (jsSetDedup ((jsSliceLast STUCK_THRESHOLD s.angleHistory).filter
          (fun a => decide (a ≠ AngleType.useless)))).head? = some x := by
        rw [hx]
        rfl
      constructor
      · rintro ⟨-, hsa⟩
        have hsa2 : (jsSetDedup ((jsSliceLast STUCK_THRESHOLD s.angleHistory).filter
            (fun a => decide (a ≠ AngleType.useless)))).head? = some c := hsa
        rw [hhead] at hsa2
        have hxc : x = c := by injection hsa2
        rw [hxc] at hx
        have h2 := (jsSetDedup_eq_single _ c).mp hx
        exact ⟨hlen, h2.1, h2.2⟩
      · rintro ⟨-, hc, hall⟩
        have hxc : jsSetDedup ((jsSliceLast STUCK_THRESHOLD s.angleHistory).filter
            (fun a => decide (a ≠ AngleType.useless))) = [c] :=
          (jsSetDedup_eq_single _ c).mpr ⟨hc, hall⟩
        refine ⟨rfl, ?_⟩
        show (jsSetDedup ((jsSliceLast STUCK_THRESHOLD s.angleHistory).filter
          (fun a => decide (a ≠ AngleType.useless)))).head? = some c
        rw [hxc]
        rfl
    · rw [if_neg hone]
      constructor
      · rintro ⟨h, -⟩
        cases h
      · rintro ⟨-, hc, hall⟩
        exact absurd (by
          rw [(jsSetDedup_eq_single _ c).mpr ⟨hc, hall⟩]
          rfl) hone
  · rw [if_neg hlen]
    constructor
    · rintro ⟨h, -⟩
      cases h
    · rintro ⟨h, -⟩
      exact absurd h hlen

/-- C3 witness: ten consecutive committed BridgeView classifications yield
the stuck-on-BridgeView state. -/
theorem c3_witness :
    (updateCameraStatus c3SteadyTen).status = StatusTag.stuck_on_angle ∧
    (updateCameraStatus c3SteadyTen).stuckAngle = some AngleType.bridge :=
  (c3_amended_stuck_rule c3SteadyTen (by decide) AngleType.bridge).mpr (by decide)

/-- C3 counterexample: with the last ten history entries being one
`useless` entry followed by nine BridgeView entries — so NOT all equal to
the same category — the recomputed state is nevertheless stuck-on-
BridgeView, refuting the "exactly when all ten entries are equal"
characterization. -/
theorem c3_counterexample :
    c3MixedHistory.consecutiveFailures < FAILURE_THRESHOLD ∧
    (updateCameraStatus c3MixedHistory).status = StatusTag.stuck_on_angle ∧
    (updateCameraStatus c3MixedHistory).stuckAngle = some AngleType.bridge ∧
    ¬ (∀ a ∈ jsSliceLast STUCK_THRESHOLD c3MixedHistory.angleHistory,
        a = AngleType.bridge) := by decide

/-- Taking `n` of a list whose tail part was already cut to `n` changes
nothing. -/
theorem take_append_take (n : Nat) (A B : List α) :
    (A ++ B.take n).take n = (A ++ B).take n := by
  rw [List.take_append_eq_append_take, List.take_append_eq_append_take,
    List.take_take]
  rw [Nat.min_eq_left (Nat.sub_le n A.length)]

/-- With a positive count, the slice is the reversed take of the reversed
list. -/
theorem jsSliceLast_of_ne_zero (n : Nat) (hn : n ≠ 0) (l : List α) :
    jsSliceLast n l = (l.reverse.take n).reverse := if_neg hn

/-- Slicing a list no longer than the count returns the list itself. -/
theorem jsSliceLast_of_le {n : Nat} {l : List α} (h : l.length ≤ n) :
    jsSliceLast n l = l := by
  unfold jsSliceLast
  split
  · rfl
  · rw [List.take_of_length_le (by simpa using h), List.reverse_reverse]

/-- Slicing the last `n` after appending absorbs an earlier slice. -/
theorem jsSliceLast_absorb (n : Nat) (hn : n ≠ 0) (l fs : List α) :
    jsSliceLast n (jsSliceLast n l ++ fs) = jsSliceLast n (l ++ fs) := by
  rw [jsSliceLast_of_ne_zero n hn l, jsSliceLast_of_ne_zero n hn,
    jsSliceLast_of_ne_zero n hn]
  rw [List.reverse_append, List.reverse_reverse, List.reverse_append]
  rw [take_append_take]

/-- A buffer commit is the slice of the extended buffer. -/
theorem commitToBuffer_eq (cap : Nat) (b : List FrameData) (f : FrameData) :
    commitToBuffer cap b f = jsSliceLast cap (b ++ [f]) := by
  unfold commitToBuffer
  dsimp only
  split
  · rfl
  · case _ h =>
      rw [jsSliceLast_of_le (Nat.le_of_not_lt h)]

/-- A buffer commit with positive capacity never leaves the buffer above
capacity. -/
theorem commitToBuffer_length_le (cap : Nat) (hn : cap ≠ 0) (b : List FrameData)
    (f : FrameData) :
    (commitToBuffer cap b f).length ≤ cap := by
  rw [commitToBuffer_eq cap b f, jsSliceLast_of_ne_zero cap hn]
  simp only [List.length_reverse, List.length_take]
  exact Nat.min_le_left _ _

/-- Folding commits over a within-capacity buffer yields the slice of
everything committed. -/
theorem foldl_commitToBuffer (cap : Nat) (hn : cap ≠ 0) :
    ∀ (fs : List FrameData) (b : List FrameData), b.length ≤ cap →
      fs.foldl (commitToBuffer cap) b = jsSliceLast cap (b ++ fs)
  | [], b, hb => by rw [List.foldl_nil, List.append_nil, jsSliceLast_of_le hb]
  | f :: fs, b, _hb => by
      rw [List.foldl_cons,
        foldl_commitToBuffer cap hn fs (commitToBuffer cap b f)
          (commitToBuffer_length_le cap hn b f),
        commitToBuffer_eq cap b f, jsSliceLast_absorb cap hn,
        List.append_assoc]
      rfl

/-- C5: for every sequence of commits into an empty buffer of positive
capacity, the buffer length never exceeds the capacity, and the buffer is
exactly the capacity-many most-recently-committed frames in commit order
(the whole history while below capacity). -/
theorem c5_buffer_bound (cap : Nat) (hcap : 1 ≤ cap) (frames : List FrameData) :
    (frames.foldl (commitToBuffer cap) []).length ≤ cap ∧
    frames.foldl (commitToBuffer cap) [] = jsSliceLast cap frames := by
  have hn : cap ≠ 0 := by omega
  have h := foldl_commitToBuffer cap hn frames [] (by simp)
  rw [List.nil_append] at h
  refine ⟨?_, h⟩
  rw [h, jsSliceLast_of_ne_zero cap hn]
  simp only [List.length_reverse, List.length_take]
  exact Nat.min_le_left _ _

/-- C5 witness: with capacity 3, committing A at t1, B at t2, C at t3 and
A again at t4 leaves the buffer holding exactly B, C and the newer A. -/
theorem c5_witness :
    ([c5FrameA1, c5FrameB, c5FrameC, c5FrameA4].foldl (commitToBuffer 3) []).length ≤ 3 ∧
    [c5FrameA1, c5FrameB, c5FrameC, c5FrameA4].foldl (commitToBuffer 3) [] =
      [c5FrameB, c5FrameC, c5FrameA4] := by
  have h := c5_buffer_bound 3 (by decide) [c5FrameA1, c5FrameB, c5FrameC, c5FrameA4]
  exact ⟨h.1, by rw [h.2]; decide⟩

/-- Reading a slot after an assignment: the assigned slot holds the new
frame (for a useful angle), every other slot is untouched. -/
theorem PreservedFrames.get_set (p : PreservedFrames) (u : AngleType)
    (f : FrameData) (c : AngleType) :
    (p.set u f).get c =
      if u = c ∧ u ≠ AngleType.useless then some f else p.get c := by
  cases u <;> cases c <;> simp [PreservedFrames.set, PreservedFrames.get]

/-- Any server tick either leaves the preserved store untouched or
overwrites exactly one useful-angle slot with a frame of that angle. -/
theorem serverStep_preserved_cases (s : ServerState) (t : ServerTick) :
    (serverStep s t).preservedFrames = s.preservedFrames ∨
    ∃ fd : FrameData, fd.angleType ≠ AngleType.useless ∧
      (serverStep s t).preservedFrames =
        PreservedFrames.set s.preservedFrames fd.angleType fd := by
  cases t with
  | scheduled now outc =>
    cases outc with
    | spawnFailed => exact Or.inl rfl
    | exitFailure => exact Or.inl rfl
    | readFailed => exact Or.inl rfl
    | frame img busy o =>
      show (smartCaptureStep s now (.frame img busy o)).state.preservedFrames =
          s.preservedFrames ∨
        ∃ fd : FrameData, fd.angleType ≠ AngleType.useless ∧
          (smartCaptureStep s now (.frame img busy o)).state.preservedFrames =
            PreservedFrames.set s.preservedFrames fd.angleType fd
      unfold smartCaptureStep
      dsimp only
      split
      · exact Or.inl rfl
      · split
        · case _ s1 heq =>
          have hs1 : s1.preservedFrames = s.preservedFrames := by
            split at heq
            · cases heq; rfl
            · split at heq
              · cases heq; rfl
              · cases heq
          dsimp only
          split
          · unfold commitFrame
            dsimp only
            split
            · case _ hcond =>
                exact Or.inr ⟨⟨img, now, classifyFrameAngle busy o⟩, hcond.1,
                  by rw [hs1]⟩
            · exact Or.inl (by rw [hs1])
          · unfold commitFrame
            dsimp only
            split
            · case _ hcond =>
                exact Or.inr ⟨⟨img, now, classifyFrameAngle busy o⟩, hcond.1,
                  by rw [hs1]⟩
            · exact Or.inl (by rw [hs1])
        · dsimp only
          split
          · exact Or.inl rfl
          · exact Or.inl rfl
  | onDemand now outc =>
    cases outc with
    | spawnFailed => exact Or.inl rfl
    | exitFailure => exact Or.inl rfl
    | readFailed => exact Or.inl rfl
    | frame img busy o =>
      show (captureFrameStep s now (.frame img busy o)).1.preservedFrames =
          s.preservedFrames ∨
        ∃ fd : FrameData, fd.angleType ≠ AngleType.useless ∧
          (captureFrameStep s now (.frame img busy o)).1.preservedFrames =
            PreservedFrames.set s.preservedFrames fd.angleType fd
      unfold captureFrameStep
      dsimp only
      split
      · exact Or.inl rfl
      · unfold commitFrame
        dsimp only
        split
        · case _ hcond =>
            exact Or.inr ⟨⟨img, now, classifyFrameAngle busy o⟩, hcond.1, rfl⟩
        · exact Or.inl rfl

/-- Along every run of the server the preserved store is well-typed: an
occupied slot holds a frame of that slot's category. -/
theorem runServer_preserved_welltyped (ticks : List ServerTick) :
    ∀ c f, (runServer ticks).preservedFrames.get c = some f → f.angleType = c := by
  suffices h : ∀ (ts : List ServerTick) (s0 : ServerState),
      (∀ c f, s0.preservedFrames.get c = some f → f.angleType = c) →
      ∀ c f, (ts.foldl serverStep s0).preservedFrames.get c = some f →
        f.angleType = c by
    refine h ticks initialState ?_
    intro c f hcf
    cases c <;> simp [initialState, PreservedFrames.get] at hcf
  intro ts
  induction ts with
  | nil => intro s0 h0; simpa using h0
  | cons t rest ih =>
    intro s0 h0 c f hget
    refine ih (serverStep s0 t) ?_ c f hget
    intro c2 f2 hg2
    rcases serverStep_preserved_cases s0 t with heq | ⟨fd, hfd, heq⟩
    · exact h0 c2 f2 (heq ▸ hg2)
    · rw [heq, PreservedFrames.get_set] at hg2
      split at hg2
      · case _ hcond =>
          have : fd = f2 := Option.some.inj hg2
          rw [← this]
          exact hcond.1
      · exact h0 c2 f2 hg2

/-- C6 (amended): along every run, each preserved slot is either empty or
holds a frame whose category equals the slot's category; and a newly
committed frame of useful category c ALWAYS overwrites the slot for c —
unconditionally, with no comparison against the occupant's timestamp. -/
theorem c6_amended_preserved_slots :
    (∀ (ticks : List ServerTick) (c : AngleType) (f : FrameData),
        (runServer ticks).preservedFrames.get c = some f → f.angleType = c) ∧
    (∀ (s : ServerState) (now : Int) (img : ImageBuffer) (busy : Bool)
        (o : ClassifierOracle),
        isImageBlurry img = false →
        classifyFrameAngle busy o ≠ AngleType.useless →
        (captureFrameStep s now (.frame img busy o)).1.preservedFrames.get
            (classifyFrameAngle busy o) =
          some ⟨img, now, classifyFrameAngle busy o⟩) := by
  constructor
  · exact fun ticks => runServer_preserved_welltyped ticks
  · intro s now img busy o hblur hne
    have hslot : s.preservedFrames.hasSlot (classifyFrameAngle busy o) = true := by
      cases hcl : classifyFrameAngle busy o with
      | useless => exact absurd hcl hne
      | bridge => rfl
      | processing => rfl
      | wide => rfl
    unfold captureFrameStep
    dsimp only
    rw [hblur]
    rw [if_neg Bool.false_ne_true]
    unfold commitFrame
    dsimp only
    rw [if_pos ⟨hne, hslot⟩]
    rw [PreservedFrames.get_set]
    rw [if_pos ⟨rfl, hne⟩]

/-- C6 counterexample: with the bridge slot holding a frame of timestamp
100, committing a new BridgeView frame whose timestamp is also 100 — NOT
strictly greater — still replaces the occupant, refuting the claim that
replacement happens only for a strictly newer frame. -/
theorem c6_counterexample :
    (captureFrameStep c6State 100
        (.frame ⟨2, 50000⟩ false oracleBridge)).1.preservedFrames.bridge =
      some ⟨⟨2, 50000⟩, 100, AngleType.bridge⟩ ∧
    some (⟨⟨2, 50000⟩, 100, AngleType.bridge⟩ : FrameData) ≠ some c6OldFrame ∧
    ¬ (c6OldFrame.timestamp < (100 : Int)) := by decide

/-- C6 witness: a BridgeView commit at timestamp 200 against the empty
store installs its frame in the bridge slot. -/
theorem c6_witness :
    (captureFrameStep initialState 200
        (.frame ⟨5, 50000⟩ false oracleBridge)).1.preservedFrames.get
      AngleType.bridge = some ⟨⟨5, 50000⟩, 200, AngleType.bridge⟩ := by
  have hb : classifyFrameAngle false oracleBridge = AngleType.bridge := by decide
  have h := c6_amended_preserved_slots.2 initialState 200 ⟨5, 50000⟩ false oracleBridge
    (by decide) (by decide)
  rw [hb] at h
  exact h

/-- Appending one commit advances the spec-level angle tracker by one
step. -/
theorem angleTracker_concat (commits : List FrameData) (f : FrameData) :
    angleTracker (commits ++ [f]) =
      (if (angleTracker commits).1 = some f.angleType then angleTracker commits
       else (some f.angleType, f.timestamp)) := by
  unfold angleTracker
  rw [List.foldl_append]
  rfl

/-- The first component of the angle tracker is the category of the last
commit. -/
theorem angleTracker_fst (commits : List FrameData) :
    (angleTracker commits).1 = commits.getLast?.map (fun f => f.angleType) := by
  induction commits using List.reverseRecOn with
  | nil => rfl
  | append_singleton l f ih =>
    rw [angleTracker_concat, List.getLast?_concat]
    split
    · case _ h => exact h
    · rfl

/-- One scheduler tick keeps the state trackers `lastCapturedAngle` and
`lastAngleChangeTime` in sync with the angle tracker of the commit
trace. -/
theorem smartCaptureStep_tracker (s : ServerState) (acc : List FrameData)
    (now : Int) (outc : CaptureOutcome)
    (h : (s.lastCapturedAngle, s.lastAngleChangeTime) = angleTracker acc) :
    ((smartCaptureStep s now outc).state.lastCapturedAngle,
      (smartCaptureStep s now outc).state.lastAngleChangeTime) =
      angleTracker (acc ++ (smartCaptureStep s now outc).saved.toList) := by
  cases outc with
  | spawnFailed => simpa [smartCaptureStep] using h
  | exitFailure => simpa [smartCaptureStep] using h
  | readFailed => simpa [smartCaptureStep] using h
  | frame img busy o =>
    unfold smartCaptureStep
    dsimp only
    by_cases hbl : isImageBlurry img = true
    · rw [if_pos hbl]
      simpa using h
    · rw [if_neg hbl]
      by_cases hA : s.lastCapturedAngle ≠ some (classifyFrameAngle busy o) ∧
          classifyFrameAngle busy o ≠ AngleType.useless
      · rw [if_pos hA]
        dsimp only
        rw [if_neg hA.2]
        rw [Option.toList_some]
        rw [angleTracker_concat]
        rw [if_neg (by
          intro hfst
          exact hA.1 ((congrArg Prod.fst h).trans hfst))]
        rfl
      · rw [if_neg hA]
        by_cases hB : REFRESH_THRESHOLD_MS < now - s.lastAngleChangeTime ∧
            classifyFrameAngle busy o ≠ AngleType.useless
        · rw [if_pos hB]
          dsimp only
          rw [if_neg hB.2]
          have hEq : s.lastCapturedAngle = some (classifyFrameAngle busy o) := by
            by_contra hne
            exact hA ⟨hne, hB.2⟩
          rw [Option.toList_some]
          rw [angleTracker_concat]
          rw [if_pos ((congrArg Prod.fst h).symm.trans hEq)]
          rw [← h, hEq]
          rfl
        · rw [if_neg hB]
          dsimp only
          rw [show (Option.toList (none : Option FrameData)) = [] from rfl,
            List.append_nil]
          by_cases hu : classifyFrameAngle busy o = AngleType.useless
          · simp only [if_pos hu]
            exact h
          · simp only [if_neg hu]
            have hEq : s.lastCapturedAngle = some (classifyFrameAngle busy o) := by
              by_contra hne
              exact hA ⟨hne, hu⟩
            rw [← h, hEq]

/-- The run worker keeps the state trackers in sync with the tracker of
the accumulated commit trace. -/
theorem smartRunAux_tracker :
    ∀ (ticks : List (Int × CaptureOutcome)) (s : ServerState) (acc : List FrameData),
      (s.lastCapturedAngle, s.lastAngleChangeTime) = angleTracker acc →
      ((smartRunAux s acc ticks).1.lastCapturedAngle,
        (smartRunAux s acc ticks).1.lastAngleChangeTime) =
        angleTracker (smartRunAux s acc ticks).2
  | [], _s, _acc, h => h
  | (now, outc) :: rest, s, acc, h =>
      smartRunAux_tracker rest _ _ (smartCaptureStep_tracker s acc now outc h)

/-- Along every scheduler run, `lastCapturedAngle` and
`lastAngleChangeTime` equal the angle tracker of the commit trace. -/
theorem smartRun_tracker (ticks : List (Int × CaptureOutcome)) :
    ((smartRun ticks).1.lastCapturedAngle, (smartRun ticks).1.lastAngleChangeTime) =
      angleTracker (smartRun ticks).2 :=
  smartRunAux_tracker ticks initialState [] rfl

/-- C1 (amended): on a scheduler tick whose capture succeeds and passes
the blur filter, the classified frame is committed to the buffer if and
only if it is non-Useless and either (a) its category differs from the
category of the last committed (necessarily non-useless) frame, or (b)
more than the refresh threshold has elapsed since the last ANGLE-CHANGE
commit — the refresh clock is restarted only by commits that change the
category, not by refresh commits of an unchanged category. Otherwise the
frame is discarded and the buffer is unchanged; a frame classified
Useless is never committed. -/
theorem c1_amended_commit_rule (ticks : List (Int × CaptureOutcome)) (now : Int)
    (img : ImageBuffer) (busy : Bool) (o : ClassifierOracle)
    (s : ServerState) (commits : List FrameData)
    (hrun : smartRun ticks = (s, commits))
    (hblur : isImageBlurry img = false) :
    ((smartCaptureStep s now (.frame img busy o)).saved =
        some ⟨img, now, classifyFrameAngle busy o⟩ ↔
      (classifyFrameAngle busy o ≠ AngleType.useless ∧
        (commits.getLast?.map (fun f => f.angleType) ≠
            some (classifyFrameAngle busy o) ∨
          REFRESH_THRESHOLD_MS < now - (angleTracker commits).2))) ∧
    (smartCaptureStep s now (.frame img busy o)).state.screenshotBuffer =
      (if classifyFrameAngle busy o ≠ AngleType.useless ∧
          (commits.getLast?.map (fun f => f.angleType) ≠
              some (classifyFrameAngle busy o) ∨
            REFRESH_THRESHOLD_MS < now - (angleTracker commits).2) then
        commitToBuffer maxBufferSize s.screenshotBuffer
          ⟨img, now, classifyFrameAngle busy o⟩
      else s.screenshotBuffer) := by
  have ht := smartRun_tracker ticks
  rw [hrun] at ht
  have h1 : s.lastCapturedAngle = commits.getLast?.map (fun f => f.angleType) :=
    (congrArg Prod.fst ht).trans (angleTracker_fst commits)
  have h2 : s.lastAngleChangeTime = (angleTracker commits).2 := congrArg Prod.snd ht
  rw [← h1, ← h2]
  have hblur2 : ¬ (isImageBlurry img = true) := by
    rw [hblur]
    exact Bool.false_ne_true
  by_cases hcond : classifyFrameAngle busy o ≠ AngleType.useless ∧
      (s.lastCapturedAngle ≠ some (classifyFrameAngle busy o) ∨
        REFRESH_THRESHOLD_MS < now - s.lastAngleChangeTime)
  · rw [if_pos hcond]
    have hout : (smartCaptureStep s now (.frame img busy o)).saved =
        some ⟨img, now, classifyFrameAngle busy o⟩ ∧
        (smartCaptureStep s now (.frame img busy o)).state.screenshotBuffer =
          commitToBuffer maxBufferSize s.screenshotBuffer
            ⟨img, now, classifyFrameAngle busy o⟩ := by
      by_cases hA : s.lastCapturedAngle ≠ some (classifyFrameAngle busy o)
      · have hAc : s.lastCapturedAngle ≠ some (classifyFrameAngle busy o) ∧
            classifyFrameAngle busy o ≠ AngleType.useless := ⟨hA, hcond.1⟩
        constructor
        · unfold smartCaptureStep
          dsimp only
          rw [if_neg hblur2, if_pos hAc]
        · unfold smartCaptureStep
          dsimp only
          rw [if_neg hblur2, if_pos hAc]
          dsimp only
          rw [if_neg hcond.1]
          rfl
      · have hB : REFRESH_THRESHOLD_MS < now - s.lastAngleChangeTime := by
          rcases hcond.2 with hh | hh
          · exact absurd hh hA
          · exact hh
        have hnA : ¬ (s.lastCapturedAngle ≠ some (classifyFrameAngle busy o) ∧
            classifyFrameAngle busy o ≠ AngleType.useless) := fun hh => hA hh.1
        have hBc : REFRESH_THRESHOLD_MS < now - s.lastAngleChangeTime ∧
            classifyFrameAngle busy o ≠ AngleType.useless := ⟨hB, hcond.1⟩
        constructor
        · unfold smartCaptureStep
          dsimp only
          rw [if_neg hblur2, if_neg hnA, if_pos hBc]
        · unfold smartCaptureStep
          dsimp only
          rw [if_neg hblur2, if_neg hnA, if_pos hBc]
          dsimp only
          rw [if_neg hcond.1]
          rfl
    exact ⟨⟨fun _ => hcond, fun _ => hout.1⟩, hout.2⟩
  · rw [if_neg hcond]
    have hc1 : ¬ (s.lastCapturedAngle ≠ some (classifyFrameAngle busy o) ∧
        classifyFrameAngle busy o ≠ AngleType.useless) := by
      rintro ⟨hx, hu⟩
      exact hcond ⟨hu, Or.inl hx⟩
    have hc2 : ¬ (REFRESH_THRESHOLD_MS < now - s.lastAngleChangeTime ∧
        classifyFrameAngle busy o ≠ AngleType.useless) := by
      rintro ⟨hx, hu⟩
      exact hcond ⟨hu, Or.inr hx⟩
    have hout : (smartCaptureStep s now (.frame img busy o)).saved = none ∧
        (smartCaptureStep s now (.frame img busy o)).state.screenshotBuffer =
          s.screenshotBuffer := by
      constructor
      · unfold smartCaptureStep
        dsimp only
        rw [if_neg hblur2, if_neg hc1, if_neg hc2]
      · unfold smartCaptureStep
        dsimp only
        rw [if_neg hblur2, if_neg hc1, if_neg hc2]
        dsimp only
        by_cases hu : classifyFrameAngle busy o = AngleType.useless
        · simp only [if_pos hu]
        · simp only [if_neg hu]
    refine ⟨⟨?_, fun hc => absurd hc hcond⟩, hout.2⟩
    intro hx
    exact Option.noConfusion (hout.1.symm.trans hx)

/-- C1 witness: from the freshly started scheduler (no commits yet), a
sharp BridgeView capture at time 5 is committed. -/
theorem c1_witness :
    (smartCaptureStep initialState 5 (.frame ⟨1, 50000⟩ false oracleBridge)).saved =
      some ⟨⟨1, 50000⟩, 5, AngleType.bridge⟩ := by
  have hb : classifyFrameAngle false oracleBridge = AngleType.bridge := by decide
  have h := c1_amended_commit_rule [] 5 ⟨1, 50000⟩ false oracleBridge
    initialState [] rfl (by decide)
  rw [hb] at h
  exact h.1.mpr (by decide)

/-- C1 counterexample: after a BridgeView commit at 1000000 (angle change)
and a BridgeView refresh commit at 1190000, the tick at 1210000 sees the
same category as the last committed frame and only 20000ms have elapsed
since the last commit of that category — by the claim the frame should be
discarded — yet the code commits it, because the refresh clock was not
reset by the refresh commit. -/
theorem c1_counterexample :
    (smartRun c1Ticks).2.map (fun f => (f.angleType, f.timestamp)) =
      [(AngleType.bridge, 1000000), (AngleType.bridge, 1190000)] ∧
    (smartCaptureStep (smartRun c1Ticks).1 1210000
        (.frame ⟨3, 50000⟩ false oracleBridge)).saved =
      some ⟨⟨3, 50000⟩, 1210000, AngleType.bridge⟩ ∧
    ((1210000 : Int) - 1190000 ≤ REFRESH_THRESHOLD_MS) := by decide

end MaseruCam
